import Mathlib

/-!
# Verification of the Crypto-Bot calibrated prediction pipeline

Shallow embedding of `src/ml/inference.py` and `src/ml/train.py`.
Python floats are modelled as rationals (`ℚ`), Python ints as `ℤ`,
raised exceptions as `Option`/`Except` error values, and the module-level
globals (`model`, `metadata`, `feature_columns`) as an explicit
`ServiceState` record threaded through each handler.
-/

/-- Python's `round(x, 4)` rounds to the closest multiple of `10⁻⁴`,
breaking ties toward the even multiple (banker's rounding).
`roundHalfEven x` is the integer Python's rounding picks for `x`. -/
def roundHalfEven (x : ℚ) : ℤ :=
  if x - ⌊x⌋ < 1/2 then ⌊x⌋
  else if 1/2 < x - ⌊x⌋ then ⌊x⌋ + 1
  else if ⌊x⌋ % 2 = 0 then ⌊x⌋ else ⌊x⌋ + 1

/-- Model of the Python expression `round(prob, 4)` from
`inference.py` lines 137 and 165. -/
def pyRound4 (x : ℚ) : ℚ := (roundHalfEven (x * 10000) : ℚ) / 10000

/-- `inference.py` lines 57–82: the pydantic input record `CoinFeatures`,
one named field per feature plus the coin identifier, each numeric field
with the default value the source declares. -/
structure CoinFeatures where
  coin_id : String
  rsi : ℚ := 50
  macd : ℚ := 0
  macd_signal : ℚ := 0
  macd_histogram : ℚ := 0
  ema_20 : ℚ := 0
  ema_50 : ℚ := 0
  atr : ℚ := 0
  atr_percent : ℚ := 3
  bb_position : ℚ := 1/2
  volume_ratio : ℚ := 1
  price_vs_ema20 : ℚ := 0
  price_vs_ema50 : ℚ := 0
  ema20_trend : ℤ := 1
  ema50_trend : ℤ := 1
  price_above_ema20 : ℤ := 1
  price_above_ema50 : ℤ := 1
  ema20_above_ema50 : ℤ := 1
  momentum_24h : ℚ := 0
  momentum_7d : ℚ := 0
  market_cap_tier : ℤ := 1
  volatility_tier : ℤ := 1
  btc_correlation : ℚ := 3/5
  market_regime : ℤ := 1

/-- `inference.py` lines 179–205, `_extract_features`: the feature array,
read attribute by attribute in the source's fixed order (integer-valued
fields are coerced, as the numpy array is homogeneous). -/
def extract_features (coin : CoinFeatures) : List ℚ :=
  [ coin.rsi
  , coin.macd
  , coin.macd_signal
  , coin.macd_histogram
  , coin.ema_20
  , coin.ema_50
  , coin.atr
  , coin.atr_percent
  , coin.bb_position
  , coin.volume_ratio
  , coin.price_vs_ema20
  , coin.price_vs_ema50
  , (coin.ema20_trend : ℚ)
  , (coin.ema50_trend : ℚ)
  , (coin.price_above_ema20 : ℚ)
  , (coin.price_above_ema50 : ℚ)
  , (coin.ema20_above_ema50 : ℚ)
  , coin.momentum_24h
  , coin.momentum_7d
  , (coin.market_cap_tier : ℚ)
  , (coin.volatility_tier : ℚ)
  , coin.btc_correlation
  , coin.market_regime ]

/-- The attribute names `_extract_features` reads, in the order it reads
them (`inference.py` lines 181–204). -/
def serving_feature_order : List String :=
  [ "rsi", "macd", "macd_signal", "macd_histogram"
  , "ema_20", "ema_50", "atr", "atr_percent"
  , "bb_position", "volume_ratio"
  , "price_vs_ema20", "price_vs_ema50"
  , "ema20_trend", "ema50_trend"
  , "price_above_ema20", "price_above_ema50"
  , "ema20_above_ema50"
  , "momentum_24h", "momentum_7d"
  , "market_cap_tier", "volatility_tier"
  , "btc_correlation", "market_regime" ]

/-- `train.py` lines 28–46: `CryptoModelTrainer.__init__`'s
`self.feature_columns`, the training-side feature-column list. -/
def CryptoModelTrainer.feature_columns : List String :=
  [ "rsi", "macd", "macd_signal", "macd_histogram"
  , "ema_20", "ema_50", "atr", "atr_percent"
  , "bb_position", "volume_ratio"
  , "price_vs_ema20", "price_vs_ema50"
  , "ema20_trend", "ema50_trend"
  , "price_above_ema20", "price_above_ema50"
  , "ema20_above_ema50"
  , "momentum_24h", "momentum_7d"
  , "market_cap_tier", "volatility_tier"
  , "btc_correlation", "market_regime" ]

/-- The deserialized calibrated classifier (`joblib.load` result), kept
abstract: `predict_proba feats` is the single row
`model.predict_proba([feats])[0]` as the pair (class-0, class-1)
probability; `none` models the call raising an exception. -/
structure Model where
  predict_proba : List ℚ → Option (ℚ × ℚ)

/-- The metadata JSON object (`crypto_model_meta.json`): each key may be
absent, which in Python surfaces as a `KeyError` on subscript access or
as `None` from `.get`. -/
structure MetaJson where
  version : Option String := none
  trained_at : Option String := none
  features : Option (List String) := none
  target : Option String := none

/-- The module-level globals of `inference.py` lines 32–34:
`model = None`, `metadata = None`, `feature_columns = []`. -/
structure ServiceState where
  model : Option Model := none
  metadata : Option MetaJson := none
  feature_columns : List String := []

/-- The state of the freshly imported module, before the startup hook. -/
def initState : ServiceState := {}

/-- The on-disk artifact pair for one model name.  `modelFile = none`
means the `.pkl` file is absent; `metaFile = none` means the
`_meta.json` file is absent, `metaFile = some none` that it exists but
is not valid JSON, `metaFile = some (some md)` that it parses to `md`. -/
structure ArtifactFS where
  modelFile : Option Model := none
  metaFile : Option (Option MetaJson) := none

/-- The distinct exceptions the two loaders can raise. -/
inductive LoadError
  | fileNotFoundModel
  | fileNotFoundMeta
  | jsonDecode
  | keyErrorFeatures
deriving DecidableEq

/-- The distinct HTTP-level error conditions of the serving API. -/
inductive ApiError
  | modelUnavailable
  | validationError
  | internalError
deriving DecidableEq

/-- The HTTP status each error condition is reported with:
`HTTPException(status_code=503, ...)` in `inference.py` lines 118 and
147 for the missing-model case, 422 for the request-validation layer,
500 for an unhandled exception. -/
def ApiError.statusCode : ApiError → Nat
  | .modelUnavailable => 503
  | .validationError => 422
  | .internalError => 500

/-- `inference.py` lines 85–91: the response record. -/
structure PredictionResult where
  coin_id : String
  probability : ℚ
  confidence : String
  prediction : ℤ
deriving DecidableEq

/-- `inference.py` lines 98–101: the batch response record. -/
structure BatchPredictionResponse where
  predictions : List PredictionResult
  model_version : String
deriving DecidableEq

/-- The health-check response record (`inference.py` lines 107–111). -/
structure HealthResponse where
  status : String
  model_version : Option String
  features_count : Nat
deriving DecidableEq

/-- `inference.py` lines 37–54, the `startup` hook `load_model`:
if the `.pkl` file is absent it prints a warning and returns with the
state unchanged; otherwise it deserializes the model, opens and parses
the metadata file (`FileNotFoundError` / `JSONDecodeError` propagate),
and sets `feature_columns = metadata['features']` (`KeyError`
propagates).  No comparison with the compiled-in schema is made. -/
def load_model (fs : ArtifactFS) (st : ServiceState) : Except LoadError ServiceState :=
  match fs.modelFile with
  | none => .ok st
  | some m =>
    match fs.metaFile with
    | none => .error .fileNotFoundMeta
    | some none => .error .jsonDecode
    | some (some md) =>
      match md.features with
      | none => .error .keyErrorFeatures
      | some feats =>
        .ok { model := some m, metadata := some md, feature_columns := feats }

/-- `train.py` lines 205–217, `CryptoModelTrainer.load_model`:
`joblib.load` raises if the `.pkl` file is absent, `open` raises if the
metadata file is absent, `json.load` raises if it does not parse, and
`metadata['features']` raises if the key is missing.  The feature list
itself is never inspected (in particular an empty list is accepted). -/
def CryptoModelTrainer.load_model (fs : ArtifactFS) :
    Except LoadError (Model × MetaJson × List String) :=
  match fs.modelFile with
  | none => .error .fileNotFoundModel
  | some m =>
    match fs.metaFile with
    | none => .error .fileNotFoundMeta
    | some none => .error .jsonDecode
    | some (some md) =>
      match md.features with
      | none => .error .keyErrorFeatures
      | some feats => .ok (m, md, feats)

/-- `inference.py` lines 128–133: the confidence if-chain of
`predict_single` (duplicated verbatim at lines 156–161 in
`predict_batch`, embedded there by `batchItem`). -/
def confidenceOf (prob : ℚ) : String :=
  if prob ≥ 0.7 then "high"
  else if prob ≥ 0.55 then "medium"
  else "low"

/-- `inference.py` lines 114–140, `predict_single`: 503 if no model is
loaded; otherwise `prob = model.predict_proba([features])[0][1]`,
`prediction = int(prob >= 0.5)`, the confidence if-chain, and the
probability rounded to 4 decimal places.  A raised exception inside
`predict_proba` becomes an internal error. -/
def predict_single (st : ServiceState) (coin : CoinFeatures) :
    Except ApiError PredictionResult :=
  match st.model with
  | none => .error .modelUnavailable
  | some m =>
    match m.predict_proba (extract_features coin) with
    | none => .error .internalError
    | some probs =>
      let prob := probs.2
      .ok { coin_id := coin.coin_id
          , probability := pyRound4 prob
          , confidence := confidenceOf prob
          , prediction := if prob ≥ 0.5 then 1 else 0 }

/-- `inference.py` lines 151–168: the body of the `for coin in
request.coins` loop, which duplicates `predict_single`'s computation;
`none` models the iteration raising. -/
def batchItem (m : Model) (coin : CoinFeatures) : Option PredictionResult :=
  match m.predict_proba (extract_features coin) with
  | none => none
  | some probs =>
    let prob := probs.2
    some { coin_id := coin.coin_id
         , probability := pyRound4 prob
         , confidence := if prob ≥ 0.7 then "high"
                         else if prob ≥ 0.55 then "medium"
                         else "low"
         , prediction := if prob ≥ 0.5 then 1 else 0 }

/-- The accumulation loop of `predict_batch`: the items are scored in
order and an exception on any item aborts the whole request (there is
no per-item handler in the source), so no partial list survives. -/
def batchLoop (m : Model) : List CoinFeatures → Option (List PredictionResult)
  | [] => some []
  | c :: cs =>
    match batchItem m c with
    | none => none
    | some r =>
      match batchLoop m cs with
      | none => none
      | some rs => some (r :: rs)

/-- Stable insertion of an earlier-input result into an already sorted
later-input suffix: the new element goes in front of the first element
whose probability it ties or exceeds. -/
def insertDesc (a : PredictionResult) : List PredictionResult → List PredictionResult
  | [] => [a]
  | x :: xs =>
    if x.probability ≤ a.probability then a :: x :: xs
    else x :: insertDesc a xs

/-- Model of `predictions.sort(key=lambda x: x.probability,
reverse=True)` (`inference.py` line 171): CPython's sort is stable, and
`reverse=True` yields non-increasing key order with ties kept in input
order; embedded as a stable insertion sort on the probability key. -/
def sortDesc : List PredictionResult → List PredictionResult
  | [] => []
  | x :: xs => insertDesc x (sortDesc xs)

/-- `inference.py` lines 143–176, `predict_batch`: 503 if no model is
loaded; otherwise the per-item loop, the stable descending sort on the
(rounded) probability, and `metadata.get('version', 'unknown')` (an
`AttributeError` if `metadata` is still `None`). -/
def predict_batch (st : ServiceState) (coins : List CoinFeatures) :
    Except ApiError BatchPredictionResponse :=
  match st.model with
  | none => .error .modelUnavailable
  | some m =>
    match batchLoop m coins with
    | none => .error .internalError
    | some preds =>
      match st.metadata with
      | none => .error .internalError
      | some md =>
        .ok { predictions := sortDesc preds
            , model_version := md.version.getD "unknown" }

/-- `inference.py` lines 104–111, `health_check`: a total function of
the state — `"healthy" if model is not None else "no_model"`,
`metadata.get('version') if metadata else None`,
`len(feature_columns)`. -/
def health_check (st : ServiceState) : HealthResponse :=
  { status := if st.model.isSome then "healthy" else "no_model"
  , model_version := match st.metadata with
                     | none => none
                     | some md => md.version
  , features_count := st.feature_columns.length }

/-- `predict_single` as a state transformer: the handler declares no
`global` and assigns none of the module globals, so the post-state is
the pre-state. -/
def predict_single_step (st : ServiceState) (coin : CoinFeatures) :
    Except ApiError PredictionResult × ServiceState :=
  (predict_single st coin, st)

/-- `predict_batch` as a state transformer: no global assignment. -/
def predict_batch_step (st : ServiceState) (coins : List CoinFeatures) :
    Except ApiError BatchPredictionResponse × ServiceState :=
  (predict_batch st coins, st)

/-- `health_check` as a state transformer: no global assignment. -/
def health_check_step (st : ServiceState) :
    HealthResponse × ServiceState :=
  (health_check st, st)

/-- The startup hook as a state transformer: the one handler that
declares `global model, metadata, feature_columns` and assigns them. -/
def startup_step (fs : ArtifactFS) (st : ServiceState) :
    Except LoadError Unit × ServiceState :=
  match load_model fs st with
  | .ok st2 => (.ok (), st2)
  | .error e => (.error e, st)

/-- Apply a fallible scorer to every record, failing the whole list as
soon as one record fails (Option-valued traversal of the list). -/
def mapOrFail (f : CoinFeatures → Option PredictionResult) :
    List CoinFeatures → Option (List PredictionResult)
  | [] => some []
  | c :: cs =>
    match f c with
    | none => none
    | some r =>
      match mapOrFail f cs with
      | none => none
      | some rs => some (r :: rs)

/-- The spec-side description of batch scoring (§4.4 of the spec):
apply `score_one`'s logic to every record independently, then sort the
results by probability, descending and stable. -/
def spec_score_batch (st : ServiceState) (coins : List CoinFeatures) :
    Option (List PredictionResult) :=
  (mapOrFail (fun c => (predict_single st c).toOption) coins).map sortDesc

/-- `out` is the stable descending-by-probability sort of `inp`:
probabilities are pairwise non-increasing in `out`, and for every key
the sublist of results carrying that probability is exactly the one of
`inp`, in the same order (stability). -/
def IsStableDescSortOf (out inp : List PredictionResult) : Prop :=
  List.Pairwise (fun a b => b.probability ≤ a.probability) out ∧
  ∀ q : ℚ, out.filter (fun r => decide (r.probability = q)) =
    inp.filter (fun r => decide (r.probability = q))

/-! ### Concrete fixtures used by witnesses and counterexamples -/

/-- A loaded classifier that always returns the probability row
`(1/2, 1/2)`. -/
def constModel : Model := ⟨fun _ => some (1/2, 1/2)⟩

/-- A loaded classifier whose class-1 probability is `rsi / 100`
(the first entry of the feature vector divided by 100). -/
def rsiModel : Model :=
  ⟨fun feats => some (1 - feats.headD 0 / 100, feats.headD 0 / 100)⟩

/-- A loaded classifier that raises on any vector with `rsi ≥ 80` and
otherwise returns the row `(3/10, 7/10)`. -/
def failingModel : Model :=
  ⟨fun feats => if (80 : ℚ) ≤ feats.headD 0 then none else some (3/10, 7/10)⟩

/-- A metadata record as `train.py`'s `save_model` writes it. -/
def goodMeta : MetaJson :=
  { version := some "1.0"
  , trained_at := some "2026-01-01T00:00:00"
  , features := some CryptoModelTrainer.feature_columns
  , target := some "price_up_1pct_24h" }

/-- A metadata record whose feature list disagrees with the compiled
schema in both order and length. -/
def mismatchedMeta : MetaJson := { goodMeta with features := some ["rsi"] }

/-- A metadata record whose declared feature list is empty. -/
def emptyFeaturesMeta : MetaJson := { goodMeta with features := some ([] : List String) }

/-- A metadata record missing the `features` key. -/
def noFeaturesMeta : MetaJson := { goodMeta with features := none }

def testCoin : CoinFeatures := { coin_id := "bitcoin" }

def badCoin : CoinFeatures := { coin_id := "dogecoin", rsi := 80 }

def coin30a : CoinFeatures := { coin_id := "c30a", rsi := 30 }

def coin90 : CoinFeatures := { coin_id := "c90", rsi := 90 }

def coin60 : CoinFeatures := { coin_id := "c60", rsi := 60 }

def coin30b : CoinFeatures := { coin_id := "c30b", rsi := 30 }

/-- The per-item results `rsiModel` produces for
`[coin30a, coin90, coin60, coin30b]`, in input order: probabilities
`[0.3, 0.9, 0.6, 0.3]` with a tie between the first and the last. -/
def batchResults : List PredictionResult :=
  [ { coin_id := "c30a", probability := 3/10, confidence := "low", prediction := 0 }
  , { coin_id := "c90", probability := 9/10, confidence := "high", prediction := 1 }
  , { coin_id := "c60", probability := 3/5, confidence := "medium", prediction := 1 }
  , { coin_id := "c30b", probability := 3/10, confidence := "low", prediction := 0 } ]

/-- The service state after a successful load of `rsiModel`. -/
def stOk : ServiceState :=
  { model := some rsiModel
  , metadata := some goodMeta
  , feature_columns := CryptoModelTrainer.feature_columns }

/-- The service state after a successful load of `failingModel`. -/
def stFail : ServiceState :=
  { model := some failingModel
  , metadata := some goodMeta
  , feature_columns := CryptoModelTrainer.feature_columns }

/-- An artifact pair whose metadata schema disagrees with the compiled
one. -/
def mismatchedFS : ArtifactFS :=
  { modelFile := some constModel, metaFile := some (some mismatchedMeta) }

/-- The state the startup hook produces from `mismatchedFS`. -/
def mismatchedLoadedState : ServiceState :=
  { model := some constModel
  , metadata := some mismatchedMeta
  , feature_columns := ["rsi"] }

/-! ### Rounding lemmas -/

theorem floor_le_roundHalfEven (x : ℚ) : ⌊x⌋ ≤ roundHalfEven x := by
  unfold roundHalfEven
  split_ifs <;> omega

theorem roundHalfEven_le_floor_add_one (x : ℚ) : roundHalfEven x ≤ ⌊x⌋ + 1 := by
  unfold roundHalfEven
  split_ifs <;> omega

theorem roundHalfEven_nonneg {x : ℚ} (h : 0 ≤ x) : 0 ≤ roundHalfEven x := by
  have h0 : (0 : ℤ) ≤ ⌊x⌋ := Int.le_floor.2 (by exact_mod_cast h)
  have h1 := floor_le_roundHalfEven x
  omega

theorem roundHalfEven_le_of_le {x : ℚ} {B : ℤ} (h : x ≤ (B : ℚ)) :
    roundHalfEven x ≤ B := by
  have hfB : ⌊x⌋ ≤ B := by
    have h2 := Int.floor_le_floor h
    simpa using h2
  unfold roundHalfEven
  split_ifs with h1 h2 h3
  · exact hfB
  · have hx : (⌊x⌋ : ℚ) + 1/2 < x := by linarith
    have hq : (⌊x⌋ : ℚ) < (B : ℚ) := by linarith
    have hz : ⌊x⌋ < B := by exact_mod_cast hq
    omega
  · exact hfB
  · push_neg at h1
    have hx : (⌊x⌋ : ℚ) + 1/2 ≤ x := by linarith
    have hq : (⌊x⌋ : ℚ) < (B : ℚ) := by linarith
    have hz : ⌊x⌋ < B := by exact_mod_cast hq
    omega

theorem pyRound4_nonneg {x : ℚ} (h : 0 ≤ x) : 0 ≤ pyRound4 x := by
  unfold pyRound4
  apply div_nonneg _ (by norm_num)
  exact_mod_cast roundHalfEven_nonneg (by positivity)

theorem pyRound4_le_one {x : ℚ} (h : x ≤ 1) : pyRound4 x ≤ 1 := by
  unfold pyRound4
  rw [div_le_one (by norm_num)]
  have hk : roundHalfEven (x * 10000) ≤ (10000 : ℤ) :=
    roundHalfEven_le_of_le (by push_cast; linarith)
  exact_mod_cast hk

/-- Rounding is the identity on values that already are integer
multiples of `10⁻⁴`. -/
theorem pyRound4_eq_self {x : ℚ} {n : ℤ} (h : x * 10000 = (n : ℚ)) :
    pyRound4 x = x := by
  unfold pyRound4 roundHalfEven
  rw [h, Int.floor_intCast, if_pos (by norm_num), ← h]
  exact mul_div_cancel_right₀ x (by norm_num)

/-- The rounded value is an integer multiple of `10⁻⁴`. -/
theorem pyRound4_mul_den (x : ℚ) : (pyRound4 x * 10000).den = 1 := by
  unfold pyRound4
  rw [div_mul_cancel₀ _ (by norm_num : (10000 : ℚ) ≠ 0)]
  exact Rat.den_intCast _

/-! ### Stable-sort lemmas -/

theorem mem_insertDesc {y a : PredictionResult} {l : List PredictionResult} :
    y ∈ insertDesc a l ↔ y = a ∨ y ∈ l := by
  induction l with
  | nil => simp [insertDesc]
  | cons x xs ih =>
    unfold insertDesc
    split_ifs with h
    · simp
    · simp [ih]
      tauto

theorem pairwise_insertDesc {a : PredictionResult} {l : List PredictionResult}
    (h : l.Pairwise (fun u v => v.probability ≤ u.probability)) :
    (insertDesc a l).Pairwise (fun u v => v.probability ≤ u.probability) := by
  induction l with
  | nil => simp [insertDesc]
  | cons x xs ih =>
    rcases List.pairwise_cons.1 h with ⟨hx, hxs⟩
    unfold insertDesc
    split_ifs with hcmp
    · refine List.pairwise_cons.2 ⟨?_, h⟩
      intro y hy
      rcases List.mem_cons.1 hy with rfl | hy2
      · exact hcmp
      · exact le_trans (hx y hy2) hcmp
    · refine List.pairwise_cons.2 ⟨?_, ih hxs⟩
      intro y hy
      rcases mem_insertDesc.1 hy with rfl | hy2
      · exact le_of_lt (lt_of_not_le hcmp)
      · exact hx y hy2

theorem sortDesc_pairwise (l : List PredictionResult) :
    (sortDesc l).Pairwise (fun u v => v.probability ≤ u.probability) := by
  induction l with
  | nil => simp [sortDesc]
  | cons x xs ih => exact pairwise_insertDesc ih

theorem filter_insertDesc (a : PredictionResult) (q : ℚ)
    (l : List PredictionResult) :
    (insertDesc a l).filter (fun r => decide (r.probability = q)) =
      if a.probability = q
      then a :: l.filter (fun r => decide (r.probability = q))
      else l.filter (fun r => decide (r.probability = q)) := by
  induction l with
  | nil =>
    by_cases hq : a.probability = q <;> simp [insertDesc, hq]
  | cons x xs ih =>
    by_cases hcmp : x.probability ≤ a.probability
    · rw [show insertDesc a (x :: xs) = a :: x :: xs from by
        simp [insertDesc, hcmp]]
      by_cases hq : a.probability = q <;>
        by_cases hxq : x.probability = q <;>
          simp [List.filter_cons, hq, hxq]
    · have hlt : a.probability < x.probability := lt_of_not_le hcmp
      rw [show insertDesc a (x :: xs) = x :: insertDesc a xs from by
        simp [insertDesc, hcmp]]
      by_cases hq : a.probability = q
      · have hxq : ¬ x.probability = q := by
          intro e
          rw [e, ← hq] at hlt
          exact lt_irrefl _ hlt
        simp [List.filter_cons, hq, hxq, ih]
      · by_cases hxq : x.probability = q <;>
          simp [List.filter_cons, hq, hxq, ih]

theorem sortDesc_filter (q : ℚ) (l : List PredictionResult) :
    (sortDesc l).filter (fun r => decide (r.probability = q)) =
      l.filter (fun r => decide (r.probability = q)) := by
  induction l with
  | nil => rfl
  | cons x xs ih =>
    by_cases hq : x.probability = q <;>
      simp [sortDesc, filter_insertDesc, hq, List.filter_cons, ih]

/-- `sortDesc` is the stable descending sort of its input. -/
theorem sortDesc_isStable (l : List PredictionResult) :
    IsStableDescSortOf (sortDesc l) l :=
  ⟨sortDesc_pairwise l, fun q => sortDesc_filter q l⟩

/-! ### Batch-loop lemmas -/

theorem batchItem_eq_toOption {st : ServiceState} {m : Model}
    (hm : st.model = some m) (c : CoinFeatures) :
    batchItem m c = (predict_single st c).toOption := by
  simp only [batchItem, predict_single, hm, confidenceOf]
  cases m.predict_proba (extract_features c) <;> rfl

theorem batchLoop_eq_mapOrFail {st : ServiceState} {m : Model}
    (hm : st.model = some m) (coins : List CoinFeatures) :
    batchLoop m coins =
      mapOrFail (fun c => (predict_single st c).toOption) coins := by
  induction coins with
  | nil => rfl
  | cons c cs ih =>
    simp only [batchLoop, mapOrFail, batchItem_eq_toOption hm c, ih]

theorem batchLoop_none_of_mem {m : Model} {c : CoinFeatures}
    {coins : List CoinFeatures} (hc : c ∈ coins)
    (hf : m.predict_proba (extract_features c) = none) :
    batchLoop m coins = none := by
  induction coins with
  | nil => cases hc
  | cons x xs ih =>
    rcases List.mem_cons.1 hc with rfl | hc2
    · simp [batchLoop, batchItem, hf]
    · cases hb : batchItem m x <;> simp [batchLoop, hb, ih hc2]

/-! ### Claim theorems -/

/-- C1: for every feature record scored while a model is loaded,
`predict_single` returns the probability rounded to 4 decimal places,
which lies in `[0,1]`, and the binary prediction is `1` exactly when
the unrounded probability is `≥ 0.5` and `0` otherwise, assuming the
loaded model's `predict_proba` output lies in `[0,1]`. -/
theorem predict_single_probability_range (st : ServiceState)
    (coin : CoinFeatures) (m : Model) (p0 p1 : ℚ)
    (hm : st.model = some m)
    (hp : m.predict_proba (extract_features coin) = some (p0, p1))
    (h0 : 0 ≤ p1) (h1 : p1 ≤ 1) :
    predict_single st coin =
      .ok { coin_id := coin.coin_id
          , probability := pyRound4 p1
          , confidence := confidenceOf p1
          , prediction := if p1 ≥ 0.5 then 1 else 0 } ∧
    0 ≤ pyRound4 p1 ∧ pyRound4 p1 ≤ 1 ∧
    (pyRound4 p1 * 10000).den = 1 ∧
    ((if p1 ≥ 0.5 then (1 : ℤ) else 0) = 1 ↔ (0.5 : ℚ) ≤ p1) ∧
    ((if p1 ≥ 0.5 then (1 : ℤ) else 0) = 0 ↔ p1 < (0.5 : ℚ)) := by
  refine ⟨?_, pyRound4_nonneg h0, pyRound4_le_one h1, pyRound4_mul_den p1, ?_, ?_⟩
  · simp [predict_single, hm, hp]
  · split_ifs with h
    · simp [h]
    · simp [h]
  · split_ifs with h
    · simp [not_lt.2 h]
    · simp [not_le.1 h]

/-- C1 witness: a concrete loaded state and record with in-range
probability `3/10`. -/
theorem predict_single_probability_range_witness :
    predict_single stOk coin30a =
      .ok { coin_id := "c30a"
          , probability := pyRound4 (3/10)
          , confidence := confidenceOf (3/10)
          , prediction := if (3/10 : ℚ) ≥ 0.5 then 1 else 0 } ∧
    0 ≤ pyRound4 ((3 : ℚ)/10) ∧ pyRound4 ((3 : ℚ)/10) ≤ 1 ∧
    (pyRound4 ((3 : ℚ)/10) * 10000).den = 1 ∧
    ((if (3/10 : ℚ) ≥ 0.5 then (1 : ℤ) else 0) = 1 ↔ (0.5 : ℚ) ≤ 3/10) ∧
    ((if (3/10 : ℚ) ≥ 0.5 then (1 : ℤ) else 0) = 0 ↔ (3/10 : ℚ) < 0.5) :=
  predict_single_probability_range stOk coin30a rsiModel (7/10) (3/10)
    rfl (by norm_num [rsiModel, coin30a, extract_features]) (by norm_num) (by norm_num)

/-- C2: the confidence label is a total deterministic function of the
probability, `"high"` iff `p ≥ 0.7`, `"medium"` iff `0.55 ≤ p < 0.7`,
`"low"` iff `p < 0.55`, and at the boundary points `0.549 → low`,
`0.55 → medium`, `0.699 → medium`, `0.70 → high`. -/
theorem confidence_bucketing (p : ℚ) :
    (confidenceOf p = "high" ↔ 0.7 ≤ p) ∧
    (confidenceOf p = "medium" ↔ 0.55 ≤ p ∧ p < 0.7) ∧
    (confidenceOf p = "low" ↔ p < 0.55) ∧
    confidenceOf 0.549 = "low" ∧
    confidenceOf 0.55 = "medium" ∧
    confidenceOf 0.699 = "medium" ∧
    confidenceOf 0.7 = "high" := by
  have hmh : ("medium" : String) ≠ "high" := by decide
  have hlh : ("low" : String) ≠ "high" := by decide
  have hhm : ("high" : String) ≠ "medium" := by decide
  have hlm : ("low" : String) ≠ "medium" := by decide
  have hhl : ("high" : String) ≠ "low" := by decide
  have hml : ("medium" : String) ≠ "low" := by decide
  unfold confidenceOf
  refine ⟨?_, ?_, ?_,
    by rw [if_neg (by norm_num), if_neg (by norm_num)],
    by rw [if_neg (by norm_num), if_pos (by norm_num)],
    by rw [if_neg (by norm_num), if_pos (by norm_num)],
    by rw [if_pos (by norm_num)]⟩
  · split_ifs with h1 h2
    · exact ⟨fun _ => h1, fun _ => rfl⟩
    · exact ⟨fun he => absurd he hmh, fun hp => absurd hp h1⟩
    · exact ⟨fun he => absurd he hlh, fun hp => absurd hp h1⟩
  · split_ifs with h1 h2
    · exact ⟨fun he => absurd he hhm, fun hc => absurd h1 (not_le.2 hc.2)⟩
    · exact ⟨fun _ => ⟨h2, lt_of_not_le h1⟩, fun _ => rfl⟩
    · exact ⟨fun he => absurd he hlm, fun hc => absurd hc.1 h2⟩
  · split_ifs with h1 h2
    · refine ⟨fun he => absurd he hhl, fun hp => ?_⟩
      exact absurd h1 (not_le.2 (lt_trans hp (by norm_num)))
    · exact ⟨fun he => absurd he hml, fun hp => absurd hp (not_lt.2 h2)⟩
    · exact ⟨fun _ => lt_of_not_le h2, fun _ => rfl⟩

/-- C4: while no model is loaded, both scoring operations return the
distinct model-unavailable condition (HTTP 503), which is a different
condition from the malformed-input one (HTTP 422), and no numeric
result is produced. -/
theorem scoring_unavailable (st : ServiceState) (coin : CoinFeatures)
    (coins : List CoinFeatures) (h : st.model = none) :
    predict_single st coin = .error .modelUnavailable ∧
    predict_batch st coins = .error .modelUnavailable ∧
    ApiError.modelUnavailable ≠ ApiError.validationError ∧
    ApiError.modelUnavailable.statusCode = 503 ∧
    ApiError.validationError.statusCode = 422 := by
  refine ⟨?_, ?_, by decide, rfl, rfl⟩
  · simp [predict_single, h]
  · simp [predict_batch, h]

/-- C4 witness: the fresh state before any load. -/
theorem scoring_unavailable_witness :
    predict_single initState testCoin = .error .modelUnavailable ∧
    predict_batch initState [testCoin] = .error .modelUnavailable ∧
    ApiError.modelUnavailable ≠ ApiError.validationError ∧
    ApiError.modelUnavailable.statusCode = 503 ∧
    ApiError.validationError.statusCode = 422 :=
  scoring_unavailable initState testCoin [testCoin] rfl

/-- C5: the serving-side extraction order coincides, name by name, with
the training-side feature-column list, both of length 23, and the
extracted vector always has that length. -/
theorem feature_contract_match :
    CryptoModelTrainer.feature_columns = serving_feature_order ∧
    CryptoModelTrainer.feature_columns.length = 23 ∧
    ∀ coin : CoinFeatures, (extract_features coin).length = 23 :=
  ⟨rfl, rfl, fun _ => rfl⟩

/-- C3: while a model (and its metadata) is loaded and every record
scores, `predict_batch` returns exactly the per-item results of
`predict_single`'s logic applied to each record independently, sorted
by probability non-increasingly with a stable sort: results with equal
probability keep their original input order. -/
theorem predict_batch_refines_stable_sort (st : ServiceState) (m : Model)
    (md : MetaJson) (coins : List CoinFeatures)
    (results : List PredictionResult)
    (hm : st.model = some m) (hmd : st.metadata = some md)
    (h : mapOrFail (fun c => (predict_single st c).toOption) coins
      = some results) :
    predict_batch st coins =
      .ok { predictions := sortDesc results
          , model_version := md.version.getD "unknown" } ∧
    spec_score_batch st coins = some (sortDesc results) ∧
    IsStableDescSortOf (sortDesc results) results := by
  have hloop : batchLoop m coins = some results := by
    rw [batchLoop_eq_mapOrFail hm, h]
  refine ⟨?_, ?_, sortDesc_isStable results⟩
  · simp [predict_batch, hm, hloop, hmd]
  · unfold spec_score_batch
    rw [h]
    rfl

/-- C3 witness: the spec's own batch example, probabilities
`[0.3, 0.9, 0.6]` plus a duplicate `0.3`, ordered
`[0.9, 0.6, 0.3, 0.3]` with the tied pair kept in input order. -/
theorem predict_batch_refines_stable_sort_witness :
    (predict_batch stOk [coin30a, coin90, coin60, coin30b] =
      .ok { predictions := sortDesc batchResults
          , model_version := goodMeta.version.getD "unknown" } ∧
    spec_score_batch stOk [coin30a, coin90, coin60, coin30b] =
      some (sortDesc batchResults) ∧
    IsStableDescSortOf (sortDesc batchResults) batchResults) ∧
    sortDesc batchResults =
      [ { coin_id := "c90", probability := 9/10, confidence := "high", prediction := 1 }
      , { coin_id := "c60", probability := 3/5, confidence := "medium", prediction := 1 }
      , { coin_id := "c30a", probability := 3/10, confidence := "low", prediction := 0 }
      , { coin_id := "c30b", probability := 3/10, confidence := "low", prediction := 0 } ] := by
  have e3 : pyRound4 (3/10) = 3/10 := pyRound4_eq_self (n := 3000) (by norm_num)
  have e9 : pyRound4 (9/10) = 9/10 := pyRound4_eq_self (n := 9000) (by norm_num)
  have e6 : pyRound4 (3/5) = 3/5 := pyRound4_eq_self (n := 6000) (by norm_num)
  have h : mapOrFail (fun c => (predict_single stOk c).toOption)
      [coin30a, coin90, coin60, coin30b] = some batchResults := by
    norm_num [mapOrFail, predict_single, stOk, rsiModel,
      extract_features, coin30a, coin90, coin60, coin30b, confidenceOf,
      e3, e9, e6, batchResults, Except.toOption]
  refine ⟨predict_batch_refines_stable_sort stOk rsiModel goodMeta
    [coin30a, coin90, coin60, coin30b] batchResults rfl rfl h, ?_⟩
  norm_num [sortDesc, insertDesc, batchResults]

/-- C6 counterexample: a persisted metadata record whose feature list
(`["rsi"]`, length 1) differs in order and length from the compiled
23-name schema is loaded without any error, the service adopts the
mismatched list, and scoring then occurs and returns a numeric
result — the claim that such a load is refused is false. -/
theorem load_schema_mismatch_counterexample :
    load_model mismatchedFS initState = .ok mismatchedLoadedState ∧
    mismatchedLoadedState.feature_columns ≠ CryptoModelTrainer.feature_columns ∧
    predict_single mismatchedLoadedState testCoin =
      .ok { coin_id := "bitcoin", probability := 1/2
          , confidence := "low", prediction := 1 } := by
  have e5 : pyRound4 (1/2) = 1/2 := pyRound4_eq_self (n := 5000) (by norm_num)
  refine ⟨rfl, by decide, ?_⟩
  norm_num [predict_single, mismatchedLoadedState, constModel, testCoin,
    extract_features, confidenceOf, e5]

/-- C6 amended: loading never compares the metadata feature list with
the compiled schema — whenever the model file is present and the
metadata parses with a `features` key, the load succeeds and the
service adopts the metadata's list verbatim, even when it differs in
order or length from the compiled schema, and scoring can then occur
with silently misaligned columns. -/
theorem load_adopts_metadata_schema_unchecked (fs : ArtifactFS)
    (st : ServiceState) (m : Model) (md : MetaJson) (feats : List String)
    (hm : fs.modelFile = some m) (hmeta : fs.metaFile = some (some md))
    (hf : md.features = some feats) :
    load_model fs st =
      .ok { model := some m, metadata := some md, feature_columns := feats } := by
  simp [load_model, hm, hmeta, hf]

/-- C6 amended witness: the mismatched artifact pair loads fine. -/
theorem load_adopts_metadata_schema_unchecked_witness :
    load_model mismatchedFS initState =
      .ok { model := some constModel, metadata := some mismatchedMeta
          , feature_columns := ["rsi"] } :=
  load_adopts_metadata_schema_unchecked mismatchedFS initState constModel
    mismatchedMeta ["rsi"] rfl rfl rfl

/-- C7 counterexample: `testCoin` on its own scores fine under
`failingModel`, but a batch pairing it with a record the model raises
on returns only the whole-batch internal error: the other record's
result is not produced, so a failure on one record does abort the rest
of the batch. -/
theorem batch_abort_counterexample :
    batchItem failingModel testCoin =
      some { coin_id := "bitcoin", probability := 7/10
           , confidence := "high", prediction := 1 } ∧
    predict_batch stFail [testCoin, badCoin] = .error .internalError := by
  have e7 : pyRound4 (7/10) = 7/10 := pyRound4_eq_self (n := 7000) (by norm_num)
  constructor
  · norm_num [batchItem, failingModel, testCoin, extract_features, e7]
  · norm_num [predict_batch, stFail, batchLoop, batchItem, failingModel,
      testCoin, badCoin, extract_features]

/-- C7 amended: a failure on one record aborts the entire batch — if
the model raises on any record of the batch, `predict_batch` returns
the internal-error condition and no per-item results at all (in
particular no record is silently replaced by a default prediction). -/
theorem batch_aborts_on_item_failure (st : ServiceState) (m : Model)
    (coins : List CoinFeatures) (c : CoinFeatures)
    (hm : st.model = some m) (hc : c ∈ coins)
    (hf : m.predict_proba (extract_features c) = none) :
    predict_batch st coins = .error .internalError := by
  simp [predict_batch, hm, batchLoop_none_of_mem hc hf]

/-- C7 amended witness: the two-record batch from the counterexample. -/
theorem batch_aborts_on_item_failure_witness :
    predict_batch stFail [badCoin, testCoin] = .error .internalError :=
  batch_aborts_on_item_failure stFail failingModel [badCoin, testCoin]
    badCoin rfl (List.Mem.head _)
    (by norm_num [failingModel, badCoin, extract_features])

/-- C8 counterexample: a metadata record whose declared feature list is
empty loads without any error through the trainer's `load_model`, and
the serving startup loader returns silently (no error at all) when the
model file is absent — the claim that these cases fail distinctly and
never silently succeed is false. -/
theorem artifact_load_counterexample :
    CryptoModelTrainer.load_model
        { modelFile := some constModel
        , metaFile := some (some emptyFeaturesMeta) } =
      .ok (constModel, emptyFeaturesMeta, ([] : List String)) ∧
    load_model { modelFile := none, metaFile := none } initState =
      .ok initState :=
  ⟨rfl, rfl⟩

/-- C8 amended: the trainer-side load raises distinct errors when the
model file is absent, when the metadata file is absent, when the
metadata does not parse, and when its `features` key is missing — but
it never inspects the feature list itself: an empty feature list is
accepted and the load silently succeeds. -/
theorem artifact_load_distinct_errors (m : Model) (md0 mdE : MetaJson)
    (meta0 : Option (Option MetaJson))
    (h0 : md0.features = none) (hE : mdE.features = some ([] : List String)) :
    CryptoModelTrainer.load_model { modelFile := none, metaFile := meta0 } =
      .error .fileNotFoundModel ∧
    CryptoModelTrainer.load_model { modelFile := some m, metaFile := none } =
      .error .fileNotFoundMeta ∧
    CryptoModelTrainer.load_model { modelFile := some m, metaFile := some none } =
      .error .jsonDecode ∧
    CryptoModelTrainer.load_model { modelFile := some m, metaFile := some (some md0) } =
      .error .keyErrorFeatures ∧
    CryptoModelTrainer.load_model { modelFile := some m, metaFile := some (some mdE) } =
      .ok (m, mdE, ([] : List String)) ∧
    LoadError.fileNotFoundModel ≠ LoadError.fileNotFoundMeta ∧
    LoadError.fileNotFoundModel ≠ LoadError.jsonDecode ∧
    LoadError.fileNotFoundModel ≠ LoadError.keyErrorFeatures ∧
    LoadError.fileNotFoundMeta ≠ LoadError.jsonDecode ∧
    LoadError.fileNotFoundMeta ≠ LoadError.keyErrorFeatures ∧
    LoadError.jsonDecode ≠ LoadError.keyErrorFeatures := by
  refine ⟨rfl, rfl, rfl, ?_, ?_, by decide, by decide, by decide, by decide,
    by decide, by decide⟩
  · simp [CryptoModelTrainer.load_model, h0]
  · simp [CryptoModelTrainer.load_model, hE]

/-- C8 amended witness: concrete metadata records for the missing-key
and empty-list cases. -/
theorem artifact_load_distinct_errors_witness :
    CryptoModelTrainer.load_model { modelFile := none, metaFile := none } =
      .error .fileNotFoundModel ∧
    CryptoModelTrainer.load_model
        { modelFile := some constModel, metaFile := none } =
      .error .fileNotFoundMeta ∧
    CryptoModelTrainer.load_model
        { modelFile := some constModel, metaFile := some none } =
      .error .jsonDecode ∧
    CryptoModelTrainer.load_model
        { modelFile := some constModel, metaFile := some (some noFeaturesMeta) } =
      .error .keyErrorFeatures ∧
    CryptoModelTrainer.load_model
        { modelFile := some constModel, metaFile := some (some emptyFeaturesMeta) } =
      .ok (constModel, emptyFeaturesMeta, ([] : List String)) ∧
    LoadError.fileNotFoundModel ≠ LoadError.fileNotFoundMeta ∧
    LoadError.fileNotFoundModel ≠ LoadError.jsonDecode ∧
    LoadError.fileNotFoundModel ≠ LoadError.keyErrorFeatures ∧
    LoadError.fileNotFoundMeta ≠ LoadError.jsonDecode ∧
    LoadError.fileNotFoundMeta ≠ LoadError.keyErrorFeatures ∧
    LoadError.jsonDecode ≠ LoadError.keyErrorFeatures :=
  artifact_load_distinct_errors constModel noFeaturesMeta emptyFeaturesMeta
    none rfl rfl

/-- C9: the health operation is a total function of the service state —
it never fails, reports `"healthy"` exactly when a model is loaded and
`"no_model"` otherwise, the loaded version string (or `none`), and the
number of active feature columns. -/
theorem health_check_total_spec (st : ServiceState) :
    ((health_check st).status = "healthy" ↔ st.model.isSome) ∧
    ((health_check st).status = "no_model" ↔ st.model = none) ∧
    (health_check st).model_version = st.metadata.bind MetaJson.version ∧
    (health_check st).features_count = st.feature_columns.length := by
  have h1 : ("no_model" : String) ≠ "healthy" := by decide
  have h2 : ("healthy" : String) ≠ "no_model" := by decide
  refine ⟨?_, ?_, ?_, rfl⟩
  · cases h : st.model <;> simp [health_check, h, h1]
  · cases h : st.model <;> simp [health_check, h, h2]
  · cases h : st.metadata <;> simp [health_check, h]

/-- C10: the scoring and introspection handlers contain no assignment
to the module globals (no `global` declaration in their bodies), so
each leaves the service state — loaded model, metadata and
feature-column list — unchanged; only the startup/load step produces a
new state. -/
theorem scoring_preserves_state (st : ServiceState) (coin : CoinFeatures)
    (coins : List CoinFeatures) :
    (predict_single_step st coin).2 = st ∧
    (predict_batch_step st coins).2 = st ∧
    (health_check_step st).2 = st ∧
    (predict_single_step st coin).2.model = st.model ∧
    (predict_single_step st coin).2.metadata = st.metadata ∧
    (predict_single_step st coin).2.feature_columns = st.feature_columns :=
  ⟨rfl, rfl, rfl, rfl, rfl, rfl⟩
